import Mathlib

/-!
Verification of the source-resolution subsystem of `zenml/utils/source_utils.py`.

The Python module is shallowly embedded: process-wide state that the code
reads (the custom source root, the repository root detected by
`Client.find_repository`, `sys.modules`, the `__main__` module, the standard
library directory, the site-packages directories, `packages_distributions`,
installed package versions, the registered code repositories and the import
machinery) is collected in an `Env` snapshot, and the module-level cache
`_CODE_REPOSITORY_CACHE` is passed explicitly as an association list.

Filesystem paths are modelled as canonical absolute POSIX path strings
(no trailing slash, no `.` or `..` components, no repeated separators);
on such paths `os.path.abspath`, `os.path.realpath` and `Path.resolve` are
the identity, so the calls to them in the source are dropped.  Python
objects are identified by a numeric identity (the embedding of `is`), and a
module's namespace is a function from attr names to object identities
(the embedding of `getattr`).  Fallible Python code (code that raises) is
embedded as `Except String`.
-/

namespace SourceUtils

/-- Truthiness of an optional Python string: `None` and the empty string
are falsy, every other string is truthy. -/
def pyTruthy : Option String → Bool
  | none => false
  | some s => s ≠ ""

/-- Split a list of characters at every occurrence of `sep`
(the embedding of `str.split`). -/
def splitChars (sep : Char) : List Char → List (List Char)
  | [] => [[]]
  | c :: cs =>
    let r := splitChars sep cs
    if c = sep then [] :: r
    else
      match r with
      | [] => [[c]]
      | h :: t => (c :: h) :: t

/-- Components of a POSIX path string: `"/a/b"` becomes `["", "a", "b"]`. -/
def splitPath (p : String) : List String :=
  (splitChars '/' p.toList).map String.mk

/-- Join strings with a separator (the embedding of `sep.join`). -/
def joinWith (sep : String) : List String → String
  | [] => ""
  | [x] => x
  | x :: y :: xs => x ++ sep ++ joinWith sep (y :: xs)

/-- `pathIsParent parent child` embeds `Path(parent) in Path(child).parents`
for canonical absolute paths: `parent` is a strict ancestor of `child`. -/
def pathIsParent (parent child : String) : Bool :=
  (splitPath parent).isPrefixOf (splitPath child) &&
    (splitPath parent).length < (splitPath child).length

/-- Parent directory of a canonical path
(the embedding of `Path(p).parent`). -/
def parentDir (p : String) : String :=
  joinWith "/" (splitPath p).dropLast

/-- Everything before the first `.` of a dotted module path
(the embedding of `module_name.split(".", maxsplit=1)[0]`). -/
def topLevelOf (name : String) : String :=
  match splitChars '.' name.toList with
  | [] => ""
  | h :: _ => String.mk h

/-- The embedding of `os.path.splitext` on a single path component: split
off the extension at the last dot, ignoring leading dots. -/
def splitext (s : String) : String × String :=
  let cs := s.toList
  let leadingDots := (cs.takeWhile (· = '.')).length
  let rest := cs.drop leadingDots
  let revAfter := rest.reverse.takeWhile (· ≠ '.')
  if revAfter.length = rest.length then (s, "")
  else
    (String.mk (cs.take (cs.length - revAfter.length - 1)),
     String.mk ('.' :: revAfter.reverse))

/-- Does the string start with the parent-directory marker `..`
(the embedding of `path.startswith(os.pardir)`)? -/
def startsWithParentDir (s : String) : Bool :=
  match s.toList with
  | '.' :: '.' :: _ => true
  | _ => false

/-- The classification tags of `zenml.config.source.SourceType`. -/
inductive SourceType where
  | user
  | builtin
  | internal
  | distributionPackage
  | codeRepository
  | unknown
deriving DecidableEq, Repr

/-- A loaded Python module: its `__name__`, its `__file__` (absent or empty
when the module has no backing file, in which case `inspect.getfile`
raises), and its namespace mapping attr names to object identities. -/
structure Module where
  name : String
  file : Option String
  attrs : String → Option Nat

/-- Modelled from the spec (and the uses in `source_utils.py`):
`zenml.code_repositories.LocalRepositoryContext`, the repository context for
a filesystem path — repository identifier, version-control root, current
commit, and the dirty-state flags read by `resolve` and by the loader
warnings. -/
structure LocalRepositoryContext where
  code_repository_id : Nat
  root : String
  current_commit : String
  is_dirty : Bool
  has_local_changes : Bool
deriving DecidableEq, Repr

/-- A registered code-repository configuration as seen by
`find_active_code_repository`: whether `BaseCodeRepository.from_model`
succeeds on it, and the result of probing `get_local_context` at a path. -/
structure CodeRepositoryModel where
  instantiable : Bool
  get_local_context : String → Option LocalRepositoryContext

/-- Modelled from the spec (and the constructions in `source_utils.py`):
the immutable source descriptor of `zenml.config.source` — a plain `Source`
with module, optional attr and classification, or one of the two
variants (`CodeRepositorySource`, `DistributionPackageSource`), each
carrying its variant payload. -/
inductive Source where
  | plain (module : String) (attr : Option String) (type : SourceType)
  | codeRepository (repository_id : Nat) (commit : String)
      (subdirectory : String) (module : String) (attr : Option String)
  | distributionPackage (module : String) (attr : Option String)
      (package_name : String) (version : Option String)
deriving DecidableEq, Repr

/-- A value returned by `load`: either a module or a non-module object
identified by its identity. -/
inductive PyVal where
  | mod (module : Module)
  | obj (obj_id : Nat)

/-- Snapshot of the process-wide state read by `source_utils.py`. -/
structure Env where
  /-- The `_CUSTOM_SOURCE_ROOT` module-level global. -/
  customSourceRoot : Option String
  /-- The result of `Client.find_repository()` (already canonical). -/
  repositoryRoot : Option String
  /-- The `sys.modules` entry for `__main__`. -/
  mainModule : Option Module
  /-- The result of `get_python_lib(standard_lib=True)`. -/
  stdlibRoot : String
  /-- `site.getsitepackages() + [site.getusersitepackages()]`. -/
  sitePackages : List String
  /-- The `packages_distributions()` mapping restricted to top-level names.
  An empty-string entry stands for a distribution whose recorded name is
  missing or empty (falsy in Python). -/
  packagesDistributions : String → List String
  /-- `importlib.metadata.version`, `none` when the lookup raises. -/
  packageVersion : String → Option String
  /-- `sys.modules`. -/
  modules : String → Option Module
  /-- `importlib.import_module`, given the current `sys.path` and the module
  name; `Except.error` when the import raises. -/
  importModule : List String → String → Except String Module
  /-- The depaginated result of `Client().list_code_repositories`. -/
  codeRepositories : List CodeRepositoryModel

/-- The embedding of `get_source_root`: custom source root if set (and
truthy), else the detected repository root, else the parent directory of the
main module's file; a hard error when the main module is missing or has no
backing file. -/
def get_source_root (env : Env) : Except String String :=
  if pyTruthy env.customSourceRoot then
    .ok (env.customSourceRoot.getD "")
  else
    match env.repositoryRoot with
    | some root => .ok root
    | none =>
      match env.mainModule with
      | none =>
        .error "Unable to determine source root: main module not found"
      | some mainModule =>
        if pyTruthy mainModule.file then
          .ok (parentDir (mainModule.file.getD ""))
        else
          .error "Unable to determine source root: main module has no file"

/-- The embedding of `set_custom_source_root`: overwrite the process-wide
custom source root. -/
def set_custom_source_root (env : Env) (sourceRoot : Option String) : Env :=
  { env with customSourceRoot := sourceRoot }

/-- The embedding of `is_internal_module`. -/
def is_internal_module (module_name : String) : Bool :=
  topLevelOf module_name == "zenml"

/-- The embedding of `is_user_file`: the file lies strictly below the
source root (whose computation can fail). -/
def is_user_file (env : Env) (file_path : String) : Except String Bool := do
  let source_root ← get_source_root env
  pure (pathIsParent source_root file_path)

/-- The embedding of `is_standard_lib_file`. -/
def is_standard_lib_file (env : Env) (file_path : String) : Bool :=
  pathIsParent env.stdlibRoot file_path

/-- The embedding of `_get_package_for_module`: the unique distribution
owning the module's top-level name, `none` when there are zero or several
candidates. -/
def _get_package_for_module (env : Env) (module_name : String) :
    Option String :=
  match env.packagesDistributions (topLevelOf module_name) with
  | [package_name] => some package_name
  | _ => none

/-- The embedding of `is_distribution_package_file`: the file lies below a
site-packages directory, or a (truthy) distribution lookup for the module's
top-level name succeeds. -/
def is_distribution_package_file (env : Env) (file_path : String)
    (module_name : String) : Bool :=
  env.sitePackages.any (fun p => pathIsParent p file_path) ||
    pyTruthy (_get_package_for_module env module_name)

/-- The embedding of `get_source_type`: the first-match-wins classifier. -/
def get_source_type (env : Env) (module : Module) : Except String SourceType :=
  if ¬ pyTruthy module.file then .ok .builtin
  else
    let file_path := module.file.getD ""
    if is_internal_module module.name then .ok .internal
    else if is_standard_lib_file env file_path then .ok .builtin
    else do
      if (← is_user_file env file_path) then .ok .user
      else if is_distribution_package_file env file_path module.name then
        .ok .distributionPackage
      else .ok .unknown

/-- The no-backing-file branch of `_resolve_module`: the bare module name,
unless the module is the synthetic `__main__` module. -/
def _resolve_module_without_file (module : Module) : Except String String :=
  if module.name = "__main__" then
    .error "Unable to resolve module: not loaded from a file"
  else .ok module.name

/-- The embedding of `_resolve_module`: re-derive the dotted module path of
a module from its file location relative to the source root.  The
`os.path.relpath` call is embedded as the component-wise remainder when the
source root is a prefix of the file path; when it is not, the relative path
starts with `..` and the source raises, which is embedded as the same error
on the non-prefix branch. -/
def _resolve_module (env : Env) (module : Module) : Except String String :=
  if ¬ pyTruthy module.file then _resolve_module_without_file module
  else do
    let module_file := module.file.getD ""
    let source_root ← get_source_root env
    let rootComponents := splitPath source_root
    let fileComponents := splitPath module_file
    if rootComponents.isPrefixOf fileComponents then
      match fileComponents.drop rootComponents.length with
      | [] =>
        -- `relpath` returns `.` here, which has no `.py` extension
        .error "Unable to resolve module: file is not a python file"
      | firstComponent :: rest =>
        if startsWithParentDir firstComponent then
          .error "Unable to resolve module: file is outside the source root"
        else
          let relComponents := firstComponent :: rest
          let (stem, extension) := splitext (relComponents.getLastD "")
          if extension = ".py" then
            .ok (joinWith "." (relComponents.dropLast ++ [stem]))
          else
            .error "Unable to resolve module: file is not a python file"
    else .error "Unable to resolve module: file is outside the source root"

/-- The process-wide `_CODE_REPOSITORY_CACHE`, keyed by absolute path. -/
abbrev RepositoryCache := List (String × LocalRepositoryContext)

/-- The scan loop of `find_active_code_repository`: skip configurations
whose instantiation fails, probe the rest in order, first match wins.
Also counts the number of `get_local_context` probes performed. -/
def scanRepositories : List CodeRepositoryModel → String →
    Option LocalRepositoryContext × Nat
  | [], _ => (none, 0)
  | repo :: rest, path =>
    if repo.instantiable then
      match repo.get_local_context path with
      | some context => (some context, 1)
      | none =>
        let (result, probes) := scanRepositories rest path
        (result, probes + 1)
    else scanRepositories rest path

/-- Result of `find_active_code_repository`, including the updated cache
and the observable effects (number of live probes, whether the repository
list was enumerated). -/
structure FindResult where
  context : Option LocalRepositoryContext
  cache : RepositoryCache
  probes : Nat
  enumerated : Bool
deriving DecidableEq, Repr

/-- The embedding of `find_active_code_repository`: default the path to the
source root, return a cached context without probing, otherwise enumerate
the registered repositories and probe each; positive results are cached,
misses are not. -/
def find_active_code_repository (env : Env) (cache : RepositoryCache)
    (path : Option String) : Except String FindResult := do
  let path ← match path with
    | some p => if p ≠ "" then pure p else get_source_root env
    | none => get_source_root env
  match cache.lookup path with
  | some context => .ok ⟨some context, cache, 0, false⟩
  | none =>
    match scanRepositories env.codeRepositories path with
    | (some context, probes) =>
      .ok ⟨some context, (path, context) :: cache, probes, true⟩
    | (none, probes) => .ok ⟨none, cache, probes, true⟩

/-- The embedding of `set_custom_local_repository`: force-populate the
cache for the current source root with a manually constructed context.
The `_DownloadedRepositoryContext` it stores is modelled from the spec
(the class is not part of this excerpt): a clean context carrying the given
repository id, root and commit. -/
def set_custom_local_repository (env : Env) (cache : RepositoryCache)
    (root : String) (commit : String) (repo_id : Nat) :
    Except String RepositoryCache := do
  let path ← get_source_root env
  .ok ((path, ⟨repo_id, root, commit, false, false⟩) :: cache)

/-- The embedding of `PurePath(path).relative_to(base)` followed by
`as_posix()`: the remainder of `path` below `base`, failing when `base` is
not a lexical prefix. -/
def relative_to (path base : String) : Except String String :=
  let pathComponents := splitPath path
  let baseComponents := splitPath base
  if baseComponents.isPrefixOf pathComponents then
    match pathComponents.drop baseComponents.length with
    | [] => .ok "."
    | c :: cs => .ok (joinWith "/" (c :: cs))
  else .error "path is not relative to base"

/-- Input of `resolve`: either a module object, or a class/function object
given by its `__module__`, its `__name__` and its identity. -/
inductive ResolveInput where
  | mod (module : Module)
  | obj (module_name : String) (attribute_name : String) (obj_id : Nat)

/-- The opening block of `resolve` (lines 118-133 of the source): determine
the defining module and attr name, and validate by identity that the
object is reachable as a top-level attr of its module.  The validation
is skipped when the attr name is falsy, exactly as in
`if attribute_name and getattr(module, attribute_name, None) is not obj`. -/
def _resolve_input (env : Env) : ResolveInput →
    Except String (Module × Option String)
  | .mod module => .ok (module, none)
  | .obj module_name attribute_name obj_id =>
    match env.modules module_name with
    | none => .error "KeyError: module not found in sys.modules"
    | some module =>
      if attribute_name ≠ "" ∧ module.attrs attribute_name ≠ some obj_id then
        .error "Unable to resolve object: not a top-level module attr"
      else .ok (module, some attribute_name)

/-- The embedding of `resolve`. -/
def resolve (env : Env) (cache : RepositoryCache) (input : ResolveInput) :
    Except String Source := do
  let (module, attribute_name) ← _resolve_input env input
  let module_name ←
    if module.name = "__main__" then _resolve_module env module
    else pure module.name
  let source_type ← get_source_type env module
  if source_type = SourceType.user then
    let findResult ← find_active_code_repository env cache none
    match findResult.context with
    | some context =>
      if ¬ context.has_local_changes then do
        let module_name ← _resolve_module env module
        let source_root ← get_source_root env
        let subdirectory ← relative_to source_root context.root
        .ok (.codeRepository context.code_repository_id
          context.current_commit subdirectory module_name attribute_name)
      else do
        let module_name ← _resolve_module env module
        .ok (.plain module_name attribute_name .user)
    | none => do
      let module_name ← _resolve_module env module
      .ok (.plain module_name attribute_name .user)
  else if source_type = SourceType.distributionPackage then
    match (_get_package_for_module env module_name).filter (· != "") with
    | some package_name =>
      .ok (.distributionPackage module_name attribute_name package_name
        (env.packageVersion package_name))
    | none => .ok (.plain module_name attribute_name .unknown)
  else
    .ok (.plain module_name attribute_name source_type)

/-- Drift warnings emitted by the loader. -/
inductive Warning where
  | noActiveRepository
  | repositoryMismatch
  | commitMismatch
  | dirtyRepository
  | versionMismatch
deriving DecidableEq, Repr

/-- The embedding of `_warn_about_potential_source_loading_issues`: the
`if`/`elif` chain over the active repository context, emitting at most one
warning. -/
def _warn_about_potential_source_loading_issues (env : Env)
    (cache : RepositoryCache) (repository_id : Nat) (commit : String) :
    Except String (List Warning) := do
  let findResult ← find_active_code_repository env cache none
  match findResult.context with
  | none => .ok [.noActiveRepository]
  | some local_repo =>
    if local_repo.code_repository_id ≠ repository_id then
      .ok [.repositoryMismatch]
    else if local_repo.current_commit ≠ commit then .ok [.commitMismatch]
    else if local_repo.is_dirty then .ok [.dirtyRepository]
    else .ok []

/-- The embedding of the `prepend_python_path` context manager around an
action: run the action with the path prepended, then remove the first
occurrence of the path (`sys.path.remove`) on every exit path. -/
def prepend_python_path (path : String) (sysPath : List String)
    (action : List String → Except String Module) :
    Except String Module × List String :=
  let extended := path :: sysPath
  (action extended, extended.erase path)

/-- The embedding of `_load_module`: import the module, with the import
root temporarily prepended to `sys.path` when one is given.  Returns the
result of the import, the final `sys.path`, and whether the path was
mutated. -/
def _load_module (env : Env) (module_name : String)
    (import_root : Option String) (sysPath : List String) :
    Except String Module × List String × Bool :=
  match import_root with
  | some root =>
    let (result, finalPath) :=
      prepend_python_path root sysPath (fun p => env.importModule p module_name)
    (result, finalPath, true)
  | none => (env.importModule sysPath module_name, sysPath, false)

/-- The attr-fetch step at the end of `load`: when the descriptor names
a (truthy) attr, fetch it from the imported module, failing when it is
absent; otherwise return the module itself. -/
def _get_module_attribute (module : Module) (attr : Option String) :
    Except String PyVal :=
  if pyTruthy attr then
    match module.attrs (attr.getD "") with
    | some obj_id => .ok (.obj obj_id)
    | none => .error "AttributeError: module has no such attr"
  else .ok (.mod module)

/-- Outcome of `load`: the loaded value (or error), the final `sys.path`,
whether the search path was mutated, and the drift warnings emitted. -/
structure LoadResult where
  result : Except String PyVal
  sysPath : List String
  mutated : Bool
  warnings : List Warning

/-- The shared tail of `load`: `_load_module` followed by the attr
fetch. -/
def _finish_load (env : Env) (module_name : String)
    (attr : Option String) (import_root : Option String)
    (sysPath : List String) (warnings : List Warning) : LoadResult :=
  let (result, finalPath, mutated) :=
    _load_module env module_name import_root sysPath
  ⟨result.bind (fun m => _get_module_attribute m attr),
    finalPath, mutated, warnings⟩

/-- The embedding of `load` on a source descriptor. -/
def load (env : Env) (cache : RepositoryCache) (source : Source)
    (sysPath : List String) : LoadResult :=
  match source with
  | .codeRepository repository_id commit _subdirectory module_name attr =>
    match _warn_about_potential_source_loading_issues env cache
        repository_id commit with
    | .error e => ⟨.error e, sysPath, false, []⟩
    | .ok warnings =>
      match get_source_root env with
      | .error e => ⟨.error e, sysPath, false, warnings⟩
      | .ok import_root =>
        _finish_load env module_name attr (some import_root) sysPath
          warnings
  | .distributionPackage module_name attr package_name version =>
    let warnings :=
      if pyTruthy version ∧ env.packageVersion package_name ≠ version then
        [Warning.versionMismatch]
      else []
    _finish_load env module_name attr none sysPath warnings
  | .plain module_name attr source_type =>
    if source_type = .user ∨ source_type = .unknown then
      match get_source_root env with
      | .error e => ⟨.error e, sysPath, false, []⟩
      | .ok import_root =>
        _finish_load env module_name attr (some import_root) sysPath []
    else _finish_load env module_name attr none sysPath []

/-- The drift conditions of section 4.3 step 1 of the spec, in their stated
precedence order, paired with the warning each produces. -/
def driftConditions (context : Option LocalRepositoryContext)
    (repository_id : Nat) (commit : String) : List (Bool × Warning) :=
  [ (context.isNone, .noActiveRepository),
    (context.any (fun r => r.code_repository_id != repository_id),
      .repositoryMismatch),
    (context.any (fun r => r.current_commit != commit), .commitMismatch),
    (context.any (fun r => r.is_dirty), .dirtyRepository) ]

/-- Stated from the spec's words: the warning of the first drift condition
that holds, and nothing when none holds. -/
def firstDriftWarning (context : Option LocalRepositoryContext)
    (repository_id : Nat) (commit : String) : List Warning :=
  match (driftConditions context repository_id commit).find? (fun c => c.1) with
  | some c => [c.2]
  | none => []

instance {ε α : Type} [DecidableEq ε] [DecidableEq α] :
    DecidableEq (Except ε α) := fun
  | .ok a, .ok b =>
    match decEq a b with
    | isTrue h => isTrue (by rw [h])
    | isFalse h => isFalse (by intro hc; cases hc; exact h rfl)
  | .error a, .error b =>
    match decEq a b with
    | isTrue h => isTrue (by rw [h])
    | isFalse h => isFalse (by intro hc; cases hc; exact h rfl)
  | .ok _, .error _ => isFalse (by intro hc; cases hc)
  | .error _, .ok _ => isFalse (by intro hc; cases hc)

/-! ### Concrete environments used by the witnesses -/

/-- A user module `pkg.mod` backed by `/proj/pkg/mod.py`; every attribute
lookup on it yields the object with identity `42`. -/
def mUser : Module := ⟨"pkg.mod", some "/proj/pkg/mod.py", fun _ => some 42⟩

/-- An environment whose source root is the custom root `/proj`, with
`mUser` registered in `sys.modules` and importable. -/
def envUser : Env where
  customSourceRoot := some "/proj"
  repositoryRoot := none
  mainModule := none
  stdlibRoot := "/usr/lib/python3"
  sitePackages := ["/venv/site-packages"]
  packagesDistributions := fun _ => []
  packageVersion := fun _ => none
  modules := fun _ => some mUser
  importModule := fun _ n => if n = "pkg.mod" then .ok mUser else .error "no such module"
  codeRepositories := []

/-- A clean repository context rooted at the source root of `envUser`. -/
def ctxClean : LocalRepositoryContext := ⟨5, "/proj", "c0mmit", false, false⟩

/-- A repository cache holding `ctxClean` for `/proj`. -/
def cacheClean : RepositoryCache := [("/proj", ctxClean)]

/-- A dirty repository context rooted at the source root of `envUser`. -/
def ctxDirty : LocalRepositoryContext := ⟨7, "/proj", "c1head", true, true⟩

/-- A repository cache holding `ctxDirty` for `/proj`. -/
def cacheDirty : RepositoryCache := [("/proj", ctxDirty)]

/-- A module whose file lies both under the source root `/proj` of
`envOverlap` and under its site-packages directory. -/
def mOverlap : Module :=
  ⟨"pkg.mod", some "/proj/venv/site-packages/pkg/mod.py", fun _ => some 1⟩

/-- An environment whose site-packages directory is nested inside the
source root `/proj`. -/
def envOverlap : Env :=
  { envUser with
      sitePackages := ["/proj/venv/site-packages"]
      modules := fun _ => some mOverlap }

/-! ### Helper lemmas -/

theorem except_bind_ok {α β ε : Type} (a : α) (f : α → Except ε β) :
    (Except.ok a >>= f) = f a := rfl

theorem except_bind_error {α β ε : Type} (e : ε) (f : α → Except ε β) :
    ((Except.error e : Except ε α) >>= f) = .error e := rfl

theorem except_pure {α ε : Type} (a : α) :
    (pure a : Except ε α) = .ok a := rfl

@[simp] theorem pyTruthy_some (s : String) :
    pyTruthy (some s) = decide (s ≠ "") := rfl

@[simp] theorem pyTruthy_none : pyTruthy none = false := rfl

/-! ### Claims -/

/-- C8: the source root is resolved by the fixed priority: explicit
process-wide override (when set to a truthy value) beats the detected
version-control repository root, which beats the parent directory of the
process entry-point file; when no override and no repository root exist and
the main module is missing or has no associated file, the derivation fails
with a hard error. -/
theorem c8_source_root_priority (env : Env) :
    (∀ r, env.customSourceRoot = some r → r ≠ "" →
      get_source_root env = .ok r) ∧
    (pyTruthy env.customSourceRoot = false →
      ∀ r, env.repositoryRoot = some r → get_source_root env = .ok r) ∧
    (pyTruthy env.customSourceRoot = false → env.repositoryRoot = none →
      ∀ m f, env.mainModule = some m → m.file = some f → f ≠ "" →
        get_source_root env = .ok (parentDir f)) ∧
    (pyTruthy env.customSourceRoot = false → env.repositoryRoot = none →
      (env.mainModule = none ∨
        ∃ m, env.mainModule = some m ∧ pyTruthy m.file = false) →
      ∃ e, get_source_root env = .error e) := by
  refine ⟨?_, ?_, ?_, ?_⟩
  · intro r hr hne
    simp [get_source_root, hr, hne]
  · intro hc r hr
    simp [get_source_root, hc, hr]
  · intro hc hrep m f hm hf hne
    simp [get_source_root, hc, hrep, hm, hf, hne]
  · intro hc hrep hmain
    rcases hmain with h | ⟨m, hm, hfile⟩
    · refine ⟨"Unable to determine source root: main module not found", ?_⟩
      simp [get_source_root, hc, hrep, h]
    · refine ⟨"Unable to determine source root: main module has no file", ?_⟩
      simp [get_source_root, hc, hrep, hm, hfile]

/-- Witness for C8: in `envUser` the custom source root `/proj` is set, and
it wins. -/
theorem c8_source_root_priority_witness :
    get_source_root envUser = .ok "/proj" :=
  (c8_source_root_priority envUser).1 "/proj" rfl (by decide)

/-- C3: the classifier follows the fixed priority order, so a module whose
file is present, not internal, not under the standard library, and
simultaneously under the source root and classified as a
distribution-package file (e.g. under a site-packages directory) is
classified as user: the user rule fires first. -/
theorem c3_classifier_user_priority (env : Env) (m : Module) (f sr : String)
    (hf : m.file = some f) (hne : f ≠ "")
    (hint : is_internal_module m.name = false)
    (hstd : is_standard_lib_file env f = false)
    (hsr : get_source_root env = .ok sr)
    (huser : pathIsParent sr f = true)
    (_hdist : is_distribution_package_file env f m.name = true) :
    get_source_type env m = .ok SourceType.user := by
  simp [get_source_type, hf, pyTruthy, hne, hint, hstd, is_user_file, hsr,
    huser, except_bind_ok]

/-- Witness for C3: in `envOverlap` the file of `mOverlap` lies both under
the source root and under a site-packages directory, and is classified as
user. -/
theorem c3_classifier_user_priority_witness :
    get_source_type envOverlap mOverlap = .ok SourceType.user :=
  c3_classifier_user_priority envOverlap mOverlap
    "/proj/venv/site-packages/pkg/mod.py" "/proj" rfl (by decide) (by decide)
    (by decide) (by decide) (by decide) (by decide)

/-- C9 counterexample: the file `/proj/..x.py` lies strictly under the
source root `/proj` of `envUser` and has the `.py` extension, yet
`_resolve_module` fails, because the computed relative path starts with the
parent-directory marker `..` even though it does not denote the parent
directory. -/
theorem c9_resolve_module_counterexample :
    pathIsParent "/proj" "/proj/..x.py" = true ∧
    (splitext "..x.py").2 = ".py" ∧
    _resolve_module envUser ⟨"m", some "/proj/..x.py", fun _ => none⟩ =
      .error "Unable to resolve module: file is outside the source root" :=
  ⟨by decide, by decide, by decide⟩

/-- C9 (amended): module-path re-derivation.  For a module without a
backing file the bare name is returned, unless the module is the synthetic
entry-point module, in which case the derivation fails.  For a module with
a backing file the derivation fails if the file lies outside the source
root, if the first component of the file's path relative to the source
root begins with the parent-directory marker `..`, or if the extension is
not `.py`; otherwise it returns the relative path minus extension with
separators replaced by dots. -/
theorem c9_resolve_module_amended (env : Env) (m : Module) :
    (pyTruthy m.file = false → m.name = "__main__" →
      _resolve_module env m =
        .error "Unable to resolve module: not loaded from a file") ∧
    (pyTruthy m.file = false → m.name ≠ "__main__" →
      _resolve_module env m = .ok m.name) ∧
    (∀ mf sr, m.file = some mf → mf ≠ "" → get_source_root env = .ok sr →
      ((splitPath sr).isPrefixOf (splitPath mf) = false →
        ∃ e, _resolve_module env m = .error e) ∧
      (∀ c cs, (splitPath mf).drop (splitPath sr).length = c :: cs →
        startsWithParentDir c = true →
        ∃ e, _resolve_module env m = .error e) ∧
      ((splitext
          (((splitPath mf).drop (splitPath sr).length).getLastD "")).2 ≠
          ".py" →
        ∃ e, _resolve_module env m = .error e) ∧
      ((splitPath sr).isPrefixOf (splitPath mf) = true →
        ∀ c cs, (splitPath mf).drop (splitPath sr).length = c :: cs →
        startsWithParentDir c = false →
        (splitext ((c :: cs).getLastD "")).2 = ".py" →
        _resolve_module env m = .ok (joinWith "."
          ((c :: cs).dropLast ++ [(splitext ((c :: cs).getLastD "")).1])))) := by
  refine ⟨?_, ?_, ?_⟩
  · intro hfile hmain
    simp [_resolve_module, hfile, _resolve_module_without_file, hmain]
  · intro hfile hmain
    simp [_resolve_module, hfile, _resolve_module_without_file, hmain]
  · intro mf sr hmf hne hsr
    refine ⟨?_, ?_, ?_, ?_⟩
    · intro hpre
      have hpre' : ¬ splitPath sr <+: splitPath mf := by
        rw [← List.isPrefixOf_iff_prefix]
        simp [hpre]
      refine ⟨"Unable to resolve module: file is outside the source root", ?_⟩
      simp [_resolve_module, hmf, hne, hsr, except_bind_ok, hpre']
    · intro c cs hdrop hdd
      refine ⟨"Unable to resolve module: file is outside the source root", ?_⟩
      by_cases hpre : (splitPath sr).isPrefixOf (splitPath mf)
      · have hpre' := List.isPrefixOf_iff_prefix.mp hpre
        simp [_resolve_module, hmf, hne, hsr, except_bind_ok, hpre', hdrop,
          hdd]
      · have hpre' : ¬ splitPath sr <+: splitPath mf := by
          rw [← List.isPrefixOf_iff_prefix]
          simp [hpre]
        simp [_resolve_module, hmf, hne, hsr, except_bind_ok, hpre']
    · intro hext
      rw [List.getLastD_eq_getLast?] at hext
      by_cases hpre : (splitPath sr).isPrefixOf (splitPath mf)
      · have hpre' := List.isPrefixOf_iff_prefix.mp hpre
        cases hdrop : (splitPath mf).drop (splitPath sr).length with
        | nil =>
          refine ⟨"Unable to resolve module: file is not a python file", ?_⟩
          simp [_resolve_module, hmf, hne, hsr, except_bind_ok, hpre', hdrop]
        | cons c cs =>
          rw [hdrop] at hext
          by_cases hdd : startsWithParentDir c
          · refine
              ⟨"Unable to resolve module: file is outside the source root",
                ?_⟩
            simp [_resolve_module, hmf, hne, hsr, except_bind_ok, hpre',
              hdrop, hdd]
          · refine
              ⟨"Unable to resolve module: file is not a python file", ?_⟩
            simp [_resolve_module, hmf, hne, hsr, except_bind_ok, hpre',
              hdrop, hdd, hext]
      · have hpre' : ¬ splitPath sr <+: splitPath mf := by
          rw [← List.isPrefixOf_iff_prefix]
          simp [hpre]
        refine
          ⟨"Unable to resolve module: file is outside the source root", ?_⟩
        simp [_resolve_module, hmf, hne, hsr, except_bind_ok, hpre']
    · intro hpre c cs hdrop hdd hext
      have hpre' := List.isPrefixOf_iff_prefix.mp hpre
      rw [List.getLastD_eq_getLast?] at hext
      simp [_resolve_module, hmf, hne, hsr, except_bind_ok, hpre', hdrop,
        hdd, hext]

/-- Witness for C9 (amended): the last conjunct applied at `envUser` and
`mUser` re-derives the dotted path `pkg.mod`. -/
theorem c9_resolve_module_amended_witness :
    _resolve_module envUser mUser = .ok "pkg.mod" :=
  ((c9_resolve_module_amended envUser mUser).2.2 "/proj/pkg/mod.py" "/proj"
    rfl (by decide) (by decide)).2.2.2 (by decide) "pkg" ["mod.py"]
    (by decide) (by decide) (by decide)

/-- A module that is not reachable through any attribute lookup: every
`getattr` on it yields nothing. -/
def mNoAttrs : Module := ⟨"m", none, fun _ => none⟩

/-- An environment whose module registry maps every name to `mNoAttrs`. -/
def envNoAttrs : Env := { envUser with modules := fun _ => some mNoAttrs }

/-- C2 counterexample: an object whose `__name__` is the empty string is
not reachable as a top-level attribute of its module (`getattr` yields
nothing, not the object), yet `resolve` does not fail: the top-level-ness
validation is skipped because the empty attribute name is falsy, and a
descriptor is returned. -/
theorem c2_resolve_counterexample :
    mNoAttrs.attrs "" ≠ some 7 ∧
    envNoAttrs.modules "m" = some mNoAttrs ∧
    resolve envNoAttrs [] (.obj "m" "" 7) =
      .ok (.plain "m" (some "") SourceType.builtin) :=
  ⟨by decide, rfl, by decide⟩

/-- C2 (amended): for every non-module input object with a non-empty name
that is not reachable as a top-level attribute of its defining module,
`resolve` fails with an error and never returns a descriptor. -/
theorem c2_resolve_unreachable_fails (env : Env) (cache : RepositoryCache)
    (module_name attribute_name : String) (obj_id : Nat)
    (hname : attribute_name ≠ "")
    (hunreach : ∀ m, env.modules module_name = some m →
      m.attrs attribute_name ≠ some obj_id) :
    ∃ e, resolve env cache (.obj module_name attribute_name obj_id) =
      .error e := by
  cases hm : env.modules module_name with
  | none =>
    exact ⟨"KeyError: module not found in sys.modules",
      by simp [resolve, _resolve_input, hm, except_bind_error]⟩
  | some m =>
    exact ⟨"Unable to resolve object: not a top-level module attr",
      by simp [resolve, _resolve_input, hm, hname, hunreach m hm,
        except_bind_error]⟩

/-- Witness for C2 (amended): resolving the unreachable object named `f`
with identity `7` in `envNoAttrs` fails. -/
theorem c2_resolve_unreachable_fails_witness :
    ∃ e, resolve envNoAttrs [] (.obj "m" "f" 7) = .error e :=
  c2_resolve_unreachable_fails envNoAttrs [] "m" "f" 7 (by decide)
    (fun m h => by cases h; decide)

/-- C4: for a user-classified object, when the repository-context lookup
finds no context or a context with uncommitted local changes, `resolve`
returns a plain descriptor with classification user and no variant payload;
and a code-repository-variant descriptor is returned only when a context
was found and it is clean. -/
theorem c4_dirty_or_absent_plain_user (env : Env) (cache : RepositoryCache)
    (input : ResolveInput) (m : Module) (a : Option String)
    (fr : FindResult) (mres : String)
    (hm : _resolve_input env input = .ok (m, a))
    (hty : get_source_type env m = .ok SourceType.user)
    (hfind : find_active_code_repository env cache none = .ok fr)
    (hres : _resolve_module env m = .ok mres) :
    ((fr.context = none ∨
        ∃ ctx, fr.context = some ctx ∧ ctx.has_local_changes = true) →
      resolve env cache input = .ok (.plain mres a SourceType.user)) ∧
    (∀ rid cm sub mn aa, resolve env cache input =
        .ok (.codeRepository rid cm sub mn aa) →
      ∃ ctx, fr.context = some ctx ∧ ctx.has_local_changes = false) := by
  constructor
  · rintro (hnone | ⟨ctx, hctx, hdirty⟩)
    · by_cases hmain : m.name = "__main__" <;>
        simp [resolve, hm, hmain, hres, hty, hfind, hnone, except_bind_ok,
          except_pure]
    · by_cases hmain : m.name = "__main__" <;>
        simp [resolve, hm, hmain, hres, hty, hfind, hctx, hdirty,
          except_bind_ok, except_pure]
  · intro rid cm sub mn aa h
    cases hctx : fr.context with
    | none =>
      by_cases hmain : m.name = "__main__" <;>
        simp [resolve, hm, hmain, hres, hty, hfind, hctx, except_bind_ok,
          except_pure] at h
    | some ctx =>
      cases hlc : ctx.has_local_changes with
      | false => exact ⟨ctx, rfl, hlc⟩
      | true =>
        by_cases hmain : m.name = "__main__" <;>
          simp [resolve, hm, hmain, hres, hty, hfind, hctx, hlc,
            except_bind_ok, except_pure] at h

/-- Witness for C4: resolving the user object `f` of `mUser` while the
cached repository context for `/proj` is dirty yields the plain user
descriptor, not the code-repository variant. -/
theorem c4_dirty_or_absent_plain_user_witness :
    resolve envUser cacheDirty (.obj "pkg.mod" "f" 42) =
      .ok (.plain "pkg.mod" (some "f") SourceType.user) :=
  (c4_dirty_or_absent_plain_user envUser cacheDirty (.obj "pkg.mod" "f" 42)
    mUser (some "f") ⟨some ctxDirty, cacheDirty, 0, false⟩ "pkg.mod" rfl
    (by decide) (by decide) (by decide)).1 (Or.inr ⟨ctxDirty, rfl, rfl⟩)

/-- A module backed by a file below the site-packages directory `/site`. -/
def mDist : Module := ⟨"pkg.mod", some "/site/pkg/mod.py", fun _ => some 3⟩

/-- An environment in which `mDist` classifies as a distribution-package
module and exactly one distribution, named `mypkg`, owns the top-level name
`pkg`. -/
def envDist : Env :=
  { envUser with
      sitePackages := ["/site"]
      packagesDistributions := fun t => if t = "pkg" then ["mypkg"] else []
      packageVersion := fun p => if p = "mypkg" then some "1.2.3" else none
      modules := fun _ => some mDist }

/-- An environment in which `mDist` classifies as a distribution-package
module and exactly one distribution owns the top-level name `pkg`, but its
recorded name is empty (falsy), as happens for an installed distribution
with corrupt metadata. -/
def envDistEmptyName : Env :=
  { envDist with
      packagesDistributions := fun t => if t = "pkg" then [""] else [] }

/-- C5 counterexample: in `envDistEmptyName` exactly one installed
distribution owns the top-level name of `mDist`, yet `resolve` does not
return the distribution-package variant: the falsy package name makes the
code demote the classification to unknown. -/
theorem c5_distribution_counterexample :
    (envDistEmptyName.packagesDistributions (topLevelOf mDist.name)).length
        = 1 ∧
    get_source_type envDistEmptyName mDist =
      .ok SourceType.distributionPackage ∧
    resolve envDistEmptyName [] (.mod mDist) =
      .ok (.plain "pkg.mod" none SourceType.unknown) :=
  ⟨by decide, by decide, by decide⟩

/-- C5 (amended): for a distribution-package-classified module, if exactly
one installed distribution with a truthy (non-empty) name owns the module's
top-level name, `resolve` returns the distribution-package variant with
that package name and the installed version (absent when the version lookup
fails); if the owner lookup yields no single truthy name (zero or several
candidates, or a single falsy name), `resolve` returns a plain descriptor
with classification demoted to unknown. -/
theorem c5_distribution_package_resolution (env : Env)
    (cache : RepositoryCache) (input : ResolveInput) (m : Module)
    (a : Option String)
    (hm : _resolve_input env input = .ok (m, a))
    (hmain : m.name ≠ "__main__")
    (hty : get_source_type env m = .ok SourceType.distributionPackage) :
    (∀ p, env.packagesDistributions (topLevelOf m.name) = [p] → p ≠ "" →
      resolve env cache input =
        .ok (.distributionPackage m.name a p (env.packageVersion p))) ∧
    ((_get_package_for_module env m.name).filter (· != "") = none →
      resolve env cache input = .ok (.plain m.name a SourceType.unknown)) := by
  constructor
  · intro p hp hpne
    have hpkg : _get_package_for_module env m.name = some p := by
      simp [_get_package_for_module, hp]
    simp [resolve, hm, hmain, hty, hpkg, Option.filter, hpne,
      except_bind_ok, except_pure]
  · intro hnone
    simp [resolve, hm, hmain, hty, hnone, except_bind_ok, except_pure]

/-- Witness for C5 (amended): in `envDist` the module resolves to the
distribution-package variant naming `mypkg` at version `1.2.3`. -/
theorem c5_distribution_package_resolution_witness :
    resolve envDist [] (.mod mDist) =
      .ok (.distributionPackage "pkg.mod" none "mypkg" (some "1.2.3")) :=
  (c5_distribution_package_resolution envDist [] (.mod mDist) mDist none rfl
    (by decide) (by decide)).1 "mypkg" (by decide) (by decide)

/-- C1: round-trip.  For a class or function that is a top-level attribute
of an importable user module, under a clean tracked repository context,
`load (resolve f)` returns the identical object (same module, same
attribute name, same identity). -/
theorem c1_round_trip (env : Env) (cache : RepositoryCache)
    (module_name attribute_name : String) (obj_id : Nat) (m : Module)
    (mres sr : String) (fr : FindResult) (ctx : LocalRepositoryContext)
    (sysPath : List String)
    (hmod : env.modules module_name = some m)
    (hattr : m.attrs attribute_name = some obj_id)
    (hname : attribute_name ≠ "")
    (hty : get_source_type env m = .ok SourceType.user)
    (hfind : find_active_code_repository env cache none = .ok fr)
    (hctx : fr.context = some ctx)
    (hclean : ctx.has_local_changes = false)
    (hres : _resolve_module env m = .ok mres)
    (hsr : get_source_root env = .ok sr)
    (hsub : (splitPath ctx.root).isPrefixOf (splitPath sr) = true)
    (himp : env.importModule (sr :: sysPath) mres = .ok m) :
    ∃ src, resolve env cache (.obj module_name attribute_name obj_id) =
        .ok src ∧
      (load env cache src sysPath).result = .ok (.obj obj_id) := by
  obtain ⟨sub, hsubeq⟩ : ∃ s, relative_to sr ctx.root = .ok s := by
    have hsub' := List.isPrefixOf_iff_prefix.mp hsub
    cases h : (splitPath sr).drop (splitPath ctx.root).length <;>
      simp [relative_to, hsub', h]
  refine ⟨.codeRepository ctx.code_repository_id ctx.current_commit sub mres
    (some attribute_name), ?_, ?_⟩
  · by_cases hmain : m.name = "__main__" <;>
      simp [resolve, _resolve_input, hmod, hattr, hname, hmain, hres, hty,
        hfind, hctx, hclean, hsr, hsubeq, except_bind_ok, except_pure]
  · cases hd : ctx.is_dirty <;>
      simp [load, _warn_about_potential_source_loading_issues, hfind, hctx,
        hd, hsr, _finish_load, _load_module, prepend_python_path, himp,
        _get_module_attribute, hname, hattr, except_bind_ok, except_pure,
        Except.bind]

/-- Witness for C1: the object `f` (identity 42) of the user module
`pkg.mod` round-trips through `resolve` and `load` under the clean cached
context for `/proj`. -/
theorem c1_round_trip_witness :
    ∃ src, resolve envUser cacheClean (.obj "pkg.mod" "f" 42) = .ok src ∧
      (load envUser cacheClean src ["lib"]).result = .ok (.obj 42) :=
  c1_round_trip envUser cacheClean "pkg.mod" "f" 42 mUser "pkg.mod" "/proj"
    ⟨some ctxClean, cacheClean, 0, false⟩ ctxClean ["lib"] rfl rfl
    (by decide) (by decide) (by decide) rfl rfl (by decide) (by decide)
    (by decide) rfl

/-- C6: `load` restores the module search path to its exact prior state on
every exit path (success or failure, for every descriptor kind), and loads
of plain internal and builtin descriptors perform no path mutation at
all. -/
theorem c6_load_restores_sys_path (env : Env) (cache : RepositoryCache)
    (source : Source) (sysPath : List String) :
    (load env cache source sysPath).sysPath = sysPath ∧
    (∀ mn a,
      (load env cache (.plain mn a SourceType.internal) sysPath).mutated
        = false) ∧
    (∀ mn a,
      (load env cache (.plain mn a SourceType.builtin) sysPath).mutated
        = false) := by
  refine ⟨?_, ?_, ?_⟩
  · cases source with
    | codeRepository rid cm sub mn a =>
      cases hw : _warn_about_potential_source_loading_issues env cache rid cm
          with
      | error e => simp [load, hw]
      | ok w =>
        cases hr : get_source_root env with
        | error e => simp [load, hw, hr]
        | ok root =>
          simp [load, hw, hr, _finish_load, _load_module,
            prepend_python_path, List.erase_cons_head]
    | distributionPackage mn a pn v =>
      simp [load, _finish_load, _load_module]
    | plain mn a ty =>
      by_cases hty : ty = SourceType.user ∨ ty = SourceType.unknown
      · cases hr : get_source_root env with
        | error e => simp [load, hty, hr]
        | ok root =>
          simp [load, hty, hr, _finish_load, _load_module,
            prepend_python_path, List.erase_cons_head]
      · simp [load, hty, _finish_load, _load_module]
  · intro mn a
    simp [load, _finish_load, _load_module]
  · intro mn a
    simp [load, _finish_load, _load_module]

/-- An environment like `envUser` in which a live repository probe would
succeed: the registered repository reports a working copy at every path. -/
def envWithRepo : Env :=
  { envUser with codeRepositories := [⟨true, fun _ => some ctxDirty⟩] }

/-- C7: after `set_custom_local_repository` injects a context for the
source root, a lookup for that path returns the injected context from the
cache, with zero live probes and without enumerating the repository list —
even though `envWithRepo`-like environments contain a repository whose
probe would succeed. -/
theorem c7_injected_context_precedence (env : Env) (cache : RepositoryCache)
    (root commit : String) (repo_id : Nat) (sr : String)
    (cache2 : RepositoryCache)
    (hsr : get_source_root env = .ok sr)
    (hset : set_custom_local_repository env cache root commit repo_id =
      .ok cache2) :
    cache2.lookup sr = some ⟨repo_id, root, commit, false, false⟩ ∧
    find_active_code_repository env cache2 (some sr) =
      .ok ⟨some ⟨repo_id, root, commit, false, false⟩, cache2, 0, false⟩ ∧
    find_active_code_repository env cache2 none =
      .ok ⟨some ⟨repo_id, root, commit, false, false⟩, cache2, 0, false⟩ := by
  have hc2 : cache2 =
      (sr, (⟨repo_id, root, commit, false, false⟩ :
        LocalRepositoryContext)) :: cache := by
    have heq : set_custom_local_repository env cache root commit repo_id =
        .ok ((sr, (⟨repo_id, root, commit, false, false⟩ :
          LocalRepositoryContext)) :: cache) := by
      simp [set_custom_local_repository, hsr, except_bind_ok]
    rw [heq] at hset
    exact (Except.ok.inj hset).symm
  subst hc2
  refine ⟨by simp, ?_, ?_⟩
  · by_cases h0 : sr = ""
    · simp [find_active_code_repository, h0, hsr, except_bind_ok,
        except_pure]
    · simp [find_active_code_repository, h0, hsr, except_bind_ok,
        except_pure]
  · simp [find_active_code_repository, hsr, except_bind_ok, except_pure]

/-- Witness for C7: injecting a context for `/proj` in `envWithRepo` makes
the subsequent lookup return it from the cache with zero probes and no
enumeration, although the registered repository would report a working
copy. -/
theorem c7_injected_context_precedence_witness :
    ([("/proj", (⟨9, "/r", "abc", false, false⟩ : LocalRepositoryContext))]
        : RepositoryCache).lookup "/proj" =
      some ⟨9, "/r", "abc", false, false⟩ ∧
    find_active_code_repository envWithRepo
        [("/proj", ⟨9, "/r", "abc", false, false⟩)] (some "/proj") =
      .ok ⟨some ⟨9, "/r", "abc", false, false⟩,
        [("/proj", ⟨9, "/r", "abc", false, false⟩)], 0, false⟩ ∧
    find_active_code_repository envWithRepo
        [("/proj", ⟨9, "/r", "abc", false, false⟩)] none =
      .ok ⟨some ⟨9, "/r", "abc", false, false⟩,
        [("/proj", ⟨9, "/r", "abc", false, false⟩)], 0, false⟩ :=
  c7_injected_context_precedence envWithRepo [] "/r" "abc" 9 "/proj"
    [("/proj", ⟨9, "/r", "abc", false, false⟩)] (by decide) (by decide)

/-- C10: a load of a code-repository descriptor emits at most one drift
warning, namely the warning of the first condition that holds in the fixed
precedence no-active-repository, repository-identifier mismatch, commit
mismatch, dirty working copy. -/
theorem c10_drift_warning_precedence (env : Env) (cache : RepositoryCache)
    (rid : Nat) (commit sub mn : String) (a : Option String)
    (sysPath : List String) (fr : FindResult)
    (hfind : find_active_code_repository env cache none = .ok fr) :
    (load env cache (.codeRepository rid commit sub mn a) sysPath).warnings =
      firstDriftWarning fr.context rid commit ∧
    ((load env cache (.codeRepository rid commit sub mn a)
        sysPath).warnings).length ≤ 1 := by
  have hwarn : _warn_about_potential_source_loading_issues env cache rid
      commit = .ok (firstDriftWarning fr.context rid commit) := by
    rw [_warn_about_potential_source_loading_issues]
    simp only [hfind, except_bind_ok]
    cases fr.context with
    | none => simp [firstDriftWarning, driftConditions]
    | some ctx =>
      by_cases h1 : ctx.code_repository_id = rid
      · by_cases h2 : ctx.current_commit = commit
        · cases h3 : ctx.is_dirty <;>
            simp [firstDriftWarning, driftConditions, h1, h2, h3]
        · simp [firstDriftWarning, driftConditions, h1, h2]
      · simp [firstDriftWarning, driftConditions, h1]
  have hlen : (firstDriftWarning fr.context rid commit).length ≤ 1 := by
    rw [firstDriftWarning]
    cases h : (driftConditions fr.context rid commit).find? (fun c => c.1)
      <;> simp
  have hw : (load env cache (.codeRepository rid commit sub mn a)
      sysPath).warnings = firstDriftWarning fr.context rid commit := by
    cases hroot : get_source_root env with
    | error e => simp [load, hwarn, hroot]
    | ok root => simp [load, hwarn, hroot, _finish_load, _load_module]
  exact ⟨hw, hw ▸ hlen⟩

/-- Witness for C10: loading a descriptor whose repository id matches the
dirty cached context but whose commit differs emits exactly the
commit-mismatch warning — the dirty condition, which also holds, is
shadowed by the earlier commit check. -/
theorem c10_drift_warning_precedence_witness :
    (load envUser cacheDirty
        (.codeRepository 7 "other" "." "pkg.mod" (some "f"))
        ["lib"]).warnings =
      firstDriftWarning (some ctxDirty) 7 "other" ∧
    ((load envUser cacheDirty
        (.codeRepository 7 "other" "." "pkg.mod" (some "f"))
        ["lib"]).warnings).length ≤ 1 :=
  c10_drift_warning_precedence envUser cacheDirty 7 "other" "." "pkg.mod"
    (some "f") ["lib"] ⟨some ctxDirty, cacheDirty, 0, false⟩ (by decide)

end SourceUtils
